import Mathlib

/-!
Verification development for the RingRTC signaling core of this repository.

The definitions below are a shallow embedding of the Rust sources:

* core/signaling.rs: the Offer, Answer, Ice, Hangup and HangupType message
  model together with their constructors and accessors;
* ios/ios_platform.rs and native.rs: the two Platform implementations of
  the outbound send callbacks (ICE, hangup, busy);
* ios/call_manager.rs: the FFI entry points that dereference the raw
  call-manager pointer and marshal arguments before delegating;
* core/util.rs: ptr_as_mut, ptr_as_box, bytes_to_hexstring, uuid_to_string.

Machine integers are modelled as Nat (DeviceId is u32, CallId is u64, a
byte is a u8, so hypotheses of the form b < 256 appear where the byte
range matters).  Fallible Rust functions returning Result are modelled
with Except RingRtcError.
-/

namespace RingRTC

/-- Bytes model a Rust Vec of u8 values; entries are Nat, and where the
byte range matters a theorem carries an explicit bound below 256. -/
abbrev Bytes := List Nat

/-- DeviceId is a u32 in common.rs, modelled as Nat. -/
abbrev DeviceId := Nat

/-- CallId wraps a u64 in common.rs, modelled as Nat. -/
abbrev CallId := Nat

/-- Modelled from the spec: CallMediaType from common.rs (not under src)
is the call media type carried by an Offer, audio-only or audio+video. -/
inductive CallMediaType where
  | Audio
  | Video
deriving DecidableEq

/-- Modelled from the spec: FeatureLevel from common.rs (not under src)
is the sender-declared capability tier; it is only carried through the
entry points, never inspected by the code embedded here. -/
inductive FeatureLevel where
  | Unspecified
  | MultiRing
deriving DecidableEq

/-- Version enum from core/signaling.rs. -/
inductive Version where
  | V2
  | V3
  | V4
deriving DecidableEq

/-- RingRtcError variants from error.rs used by the embedded code.
ProtoDecodeError stands for the prost decode error that Offer::new and
Answer::new surface when the wire blob does not parse. -/
inductive RingRtcError where
  | NullPointer (func : String) (arg : String)
  | OptionValueNotSet (func : String) (arg : String)
  | UnknownSignaledProtocolVersion
  | ProtoDecodeError
deriving DecidableEq

/-! ## The decoded protobuf payloads

The protobuf message definitions (protobuf/signaling.proto, generated by
prost) are code of this repository that is not under src/.  Their field
structure is modelled from the spec: an Offer or Answer payload is a
message with an optional legacy sub-message (itself carrying an optional
public key and an optional SDP string) and an optional modern v4
sub-message whose internals the embedded code never inspects. -/

/-- ConnectionParametersV3OrV2: optional public key plus optional SDP. -/
structure ConnectionParametersV3OrV2 where
  public_key : Option Bytes
  sdp : Option String
deriving DecidableEq

/-- ConnectionParametersV4: treated as a fully opaque payload, because
none of the embedded accessors look inside it. -/
structure ConnectionParametersV4 where
  payload : Bytes
deriving DecidableEq

/-- Decoded Offer payload: optional legacy and optional v4 sub-messages. -/
structure OfferProto where
  v3_or_v2 : Option ConnectionParametersV3OrV2
  v4 : Option ConnectionParametersV4
deriving DecidableEq

/-- Decoded Answer payload: same shape as the Offer payload. -/
structure AnswerProto where
  v3_or_v2 : Option ConnectionParametersV3OrV2
  v4 : Option ConnectionParametersV4
deriving DecidableEq

/-! ## The wire encoding

Modelled from the spec: prost serializes these messages to a byte vector
and decoding fails on malformed input.  The byte-level varint format is
not visible in src/, so the wire is modelled at token level: a faithful
tagged serialization with a genuine partial decoder (some token lists do
not parse, mirroring malformed protobuf bytes). -/

/-- Wire tokens for the modelled serialization of the signaling payloads. -/
inductive Tok where
  | tagNone
  | tagSome
  | bytes (b : Bytes)
  | text (s : String)
deriving DecidableEq

/-- Wire models the serialized payload vector (Vec of u8 in Rust). -/
abbrev Wire := List Tok

/-- Serializes an optional sub-message as a presence tag plus body. -/
def encodeOpt (f : α → Wire) : Option α → Wire
  | none => [Tok.tagNone]
  | some x => Tok.tagSome :: f x

/-- Parses an optional sub-message, returning the rest of the input. -/
def decodeOpt (f : Wire → Option (α × Wire)) : Wire → Option (Option α × Wire)
  | Tok.tagNone :: rest => some (none, rest)
  | Tok.tagSome :: rest =>
    match f rest with
    | some (x, r) => some (some x, r)
    | none => none
  | _ => none

/-- Serializes a byte field. -/
def encodeBytesField (b : Bytes) : Wire := [Tok.bytes b]

/-- Parses a byte field. -/
def decodeBytesField : Wire → Option (Bytes × Wire)
  | Tok.bytes b :: rest => some (b, rest)
  | _ => none

/-- Serializes a string field. -/
def encodeTextField (s : String) : Wire := [Tok.text s]

/-- Parses a string field. -/
def decodeTextField : Wire → Option (String × Wire)
  | Tok.text s :: rest => some (s, rest)
  | _ => none

/-- Serializes the legacy sub-message. -/
def encodeV3OrV2 (c : ConnectionParametersV3OrV2) : Wire :=
  encodeOpt encodeBytesField c.public_key ++ encodeOpt encodeTextField c.sdp

/-- Parses the legacy sub-message. -/
def decodeV3OrV2 (w : Wire) : Option (ConnectionParametersV3OrV2 × Wire) :=
  match decodeOpt decodeBytesField w with
  | some (pk, r1) =>
    match decodeOpt decodeTextField r1 with
    | some (sdp, r2) => some (⟨pk, sdp⟩, r2)
    | none => none
  | none => none

/-- Serializes the v4 sub-message. -/
def encodeV4 (v : ConnectionParametersV4) : Wire := [Tok.bytes v.payload]

/-- Parses the v4 sub-message. -/
def decodeV4 : Wire → Option (ConnectionParametersV4 × Wire)
  | Tok.bytes b :: rest => some (⟨b⟩, rest)
  | _ => none

/-- Serializes an Offer payload. -/
def encodeOfferProto (p : OfferProto) : Wire :=
  encodeOpt encodeV3OrV2 p.v3_or_v2 ++ encodeOpt encodeV4 p.v4

/-- Parses an Offer payload; the whole input must be consumed. -/
def decodeOfferProto (w : Wire) : Option OfferProto :=
  match decodeOpt decodeV3OrV2 w with
  | some (v32, r1) =>
    match decodeOpt decodeV4 r1 with
    | some (v4, r2) => if r2 = [] then some ⟨v32, v4⟩ else none
    | none => none
  | none => none

/-- Serializes an Answer payload. -/
def encodeAnswerProto (p : AnswerProto) : Wire :=
  encodeOpt encodeV3OrV2 p.v3_or_v2 ++ encodeOpt encodeV4 p.v4

/-- Parses an Answer payload; the whole input must be consumed. -/
def decodeAnswerProto (w : Wire) : Option AnswerProto :=
  match decodeOpt decodeV3OrV2 w with
  | some (v32, r1) =>
    match decodeOpt decodeV4 r1 with
    | some (v4, r2) => if r2 = [] then some ⟨v32, v4⟩ else none
    | none => none
  | none => none

/-! ## Offer and Answer (core/signaling.rs) -/

/-- Offer from core/signaling.rs: the media type, the serialized payload
(the Rust field holding the wire bytes, here called blob because its Rust
name is a Lean keyword), and the cached decoded payload. -/
structure Offer where
  call_media_type : CallMediaType
  blob : Wire
  proto : OfferProto
deriving DecidableEq

namespace Offer

/-- Offer::new: decodes the payload, failing with a decode error when it
does not parse, and caches the decoded form next to the blob. -/
def new (call_media_type : CallMediaType) (blob : Wire) :
    Except RingRtcError Offer :=
  match decodeOfferProto blob with
  | some proto => .ok ⟨call_media_type, blob, proto⟩
  | none => .error .ProtoDecodeError

/-- Offer::latest_version: ordered match mirroring the source, v4 first,
then a legacy sub-message carrying a public key, else V2. -/
def latest_version (o : Offer) : Version :=
  match o.proto.v4 with
  | some _ => .V4
  | none =>
    match o.proto.v3_or_v2 with
    | some c =>
      match c.public_key with
      | some _ => .V3
      | none => .V2
    | none => .V2

/-- Offer::from_v4: builds a payload with only the v4 sub-message set and
passes it through new. -/
def from_v4 (call_media_type : CallMediaType)
    (v4 : ConnectionParametersV4) : Except RingRtcError Offer :=
  new call_media_type (encodeOfferProto ⟨none, some v4⟩)

/-- Offer::from_v4_and_v3_and_v2: builds a payload whose legacy
sub-message carries the public key and the SDP, with the optional v4
sub-message passed through, then goes through new. -/
def from_v4_and_v3_and_v2 (call_media_type : CallMediaType)
    (public_key : Bytes) (v4 : Option ConnectionParametersV4)
    (v3_or_v2_sdp : String) : Except RingRtcError Offer :=
  new call_media_type
    (encodeOfferProto ⟨some ⟨some public_key, some v3_or_v2_sdp⟩, v4⟩)

/-- Offer::to_v4. -/
def to_v4 (o : Offer) : Option ConnectionParametersV4 :=
  o.proto.v4

/-- Offer::to_v3_or_v2_sdp: the legacy SDP when present, else the unknown
protocol version error. -/
def to_v3_or_v2_sdp (o : Offer) : Except RingRtcError String :=
  match o.proto.v3_or_v2 with
  | some c =>
    match c.sdp with
    | some s => .ok s
    | none => .error .UnknownSignaledProtocolVersion
  | none => .error .UnknownSignaledProtocolVersion

/-- Offer::to_v3_or_v2_params: the legacy SDP and public key when the SDP
is present, else the unknown protocol version error. -/
def to_v3_or_v2_params (o : Offer) :
    Except RingRtcError (String × Option Bytes) :=
  match o.proto.v3_or_v2 with
  | some c =>
    match c.sdp with
    | some s => .ok (s, c.public_key)
    | none => .error .UnknownSignaledProtocolVersion
  | none => .error .UnknownSignaledProtocolVersion

end Offer

/-- Answer from core/signaling.rs: the serialized payload and the cached
decoded payload. -/
structure Answer where
  blob : Wire
  proto : AnswerProto
deriving DecidableEq

namespace Answer

/-- Answer::new: decodes the payload, failing with a decode error when it
does not parse. -/
def new (blob : Wire) : Except RingRtcError Answer :=
  match decodeAnswerProto blob with
  | some proto => .ok ⟨blob, proto⟩
  | none => .error .ProtoDecodeError

/-- Answer::latest_version: same ordered match as the Offer version. -/
def latest_version (a : Answer) : Version :=
  match a.proto.v4 with
  | some _ => .V4
  | none =>
    match a.proto.v3_or_v2 with
    | some c =>
      match c.public_key with
      | some _ => .V3
      | none => .V2
    | none => .V2

/-- Answer::from_v4. -/
def from_v4 (v4 : ConnectionParametersV4) : Except RingRtcError Answer :=
  new (encodeAnswerProto ⟨none, some v4⟩)

/-- Answer::from_v3_and_v2_sdp: legacy sub-message with the public key
and the SDP, no v4, passed through new. -/
def from_v3_and_v2_sdp (public_key : Bytes) (v3_and_v2_sdp : String) :
    Except RingRtcError Answer :=
  new (encodeAnswerProto ⟨some ⟨some public_key, some v3_and_v2_sdp⟩, none⟩)

/-- Answer::to_v4. -/
def to_v4 (a : Answer) : Option ConnectionParametersV4 :=
  a.proto.v4

/-- Answer::to_v3_or_v2_params. -/
def to_v3_or_v2_params (a : Answer) :
    Except RingRtcError (String × Option Bytes) :=
  match a.proto.v3_or_v2 with
  | some c =>
    match c.sdp with
    | some s => .ok (s, c.public_key)
    | none => .error .UnknownSignaledProtocolVersion
  | none => .error .UnknownSignaledProtocolVersion

end Answer

/-! ## Ice, Hangup, HangupType (core/signaling.rs) -/

/-- IceCandidate: a version-independent serialized blob. -/
structure IceCandidate where
  blob : Bytes
deriving DecidableEq

/-- Ice: a batch of candidates added since the last batch. -/
structure Ice where
  candidates_added : List IceCandidate
deriving DecidableEq

/-- Hangup enum from core/signaling.rs. -/
inductive Hangup where
  | Normal
  | AcceptedOnAnotherDevice (id : DeviceId)
  | DeclinedOnAnotherDevice (id : DeviceId)
  | BusyOnAnotherDevice (id : DeviceId)
  | NeedPermission (id : Option DeviceId)
deriving DecidableEq

/-- HangupType enum from core/signaling.rs, repr i32. -/
inductive HangupType where
  | Normal
  | AcceptedOnAnotherDevice
  | DeclinedOnAnotherDevice
  | BusyOnAnotherDevice
  | NeedPermission
deriving DecidableEq

namespace HangupType

/-- The i32 discriminants fixed by the repr attribute in the source. -/
def toI32 : HangupType → Int
  | .Normal => 0
  | .AcceptedOnAnotherDevice => 1
  | .DeclinedOnAnotherDevice => 2
  | .BusyOnAnotherDevice => 3
  | .NeedPermission => 4

/-- HangupType::from_i32. -/
def from_i32 (value : Int) : Option HangupType :=
  if value = 0 then some .Normal
  else if value = 1 then some .AcceptedOnAnotherDevice
  else if value = 2 then some .DeclinedOnAnotherDevice
  else if value = 3 then some .BusyOnAnotherDevice
  else if value = 4 then some .NeedPermission
  else none

end HangupType

namespace Hangup

/-- Hangup::to_type_and_device_id. -/
def to_type_and_device_id : Hangup → HangupType × Option DeviceId
  | .Normal => (.Normal, none)
  | .AcceptedOnAnotherDevice id => (.AcceptedOnAnotherDevice, some id)
  | .DeclinedOnAnotherDevice id => (.DeclinedOnAnotherDevice, some id)
  | .BusyOnAnotherDevice id => (.BusyOnAnotherDevice, some id)
  | .NeedPermission id => (.NeedPermission, id)

/-- Hangup::from_type_and_device_id: the device id argument is a concrete
u32, so NeedPermission always comes back with the id set. -/
def from_type_and_device_id (typ : HangupType) (device_id : DeviceId) :
    Hangup :=
  match typ with
  | .Normal => .Normal
  | .AcceptedOnAnotherDevice => .AcceptedOnAnotherDevice device_id
  | .DeclinedOnAnotherDevice => .DeclinedOnAnotherDevice device_id
  | .BusyOnAnotherDevice => .BusyOnAnotherDevice device_id
  | .NeedPermission => .NeedPermission (some device_id)

end Hangup

/-- SendIce wrapper from core/signaling.rs. -/
structure SendIce where
  ice : Ice
  receiver_device_id : Option DeviceId
deriving DecidableEq

/-- SendHangup wrapper from core/signaling.rs. -/
structure SendHangup where
  hangup : Hangup
  use_legacy : Bool
deriving DecidableEq

/-- Message sum type from core/signaling.rs (the payload the native
platform hands to its signaling sender). -/
inductive Message where
  | Offer (offer : Offer)
  | Answer (answer : Answer)
  | Ice (ice : Ice)
  | Hangup (hangup : Hangup)
  | LegacyHangup (hangup : Hangup)
  | Busy
deriving DecidableEq

/-! ## iOS platform outbound callbacks (ios/ios_platform.rs)

Each on_send method either returns early or invokes exactly one app
interface callback.  The callback invocation is modelled as the record of
arguments handed to the host; the remote peer pointer is an opaque Nat. -/

/-- Arguments of one onSendIceCandidates invocation on iOS. -/
structure IceCallbackArgs where
  call_id : CallId
  remote_peer : Nat
  receiver_device_id : DeviceId
  broadcast : Bool
  candidates : List Bytes
deriving DecidableEq

/-- Arguments of one onSendHangup invocation on iOS. -/
structure HangupCallbackArgs where
  call_id : CallId
  remote_peer : Nat
  receiver_device_id : DeviceId
  broadcast : Bool
  hangup_type : Int
  hangup_device_id : DeviceId
  use_legacy : Bool
deriving DecidableEq

/-- Arguments of one onSendBusy invocation on iOS. -/
structure BusyCallbackArgs where
  call_id : CallId
  remote_peer : Nat
  receiver_device_id : DeviceId
  broadcast : Bool
deriving DecidableEq

namespace IOSPlatform

/-- IOSPlatform::on_send_ice: computes broadcast and receiver id from the
optional target, returns Ok early on an empty batch (no callback, result
none), else invokes onSendIceCandidates once with the candidate blobs. -/
def on_send_ice (remote_peer : Nat) (call_id : CallId) (send : SendIce) :
    Except RingRtcError (Option IceCallbackArgs) :=
  let pair : Bool × DeviceId :=
    match send.receiver_device_id with
    | none => (true, 0)
    | some receiver_device_id => (false, receiver_device_id)
  if send.ice.candidates_added = [] then
    .ok none
  else
    .ok (some
      ⟨call_id, remote_peer, pair.2, pair.1,
        send.ice.candidates_added.map (fun c => c.blob)⟩)

/-- IOSPlatform::on_send_hangup: hangups are always broadcast with the
placeholder receiver id 0; an unset hangup device id is sent as 0. -/
def on_send_hangup (remote_peer : Nat) (call_id : CallId)
    (send : SendHangup) : HangupCallbackArgs :=
  let broadcast := true
  let receiver_device_id : DeviceId := 0
  let pair := send.hangup.to_type_and_device_id
  ⟨call_id, remote_peer, receiver_device_id, broadcast,
    pair.1.toI32, pair.2.getD 0, send.use_legacy⟩

/-- IOSPlatform::on_send_busy: busy messages are always broadcast with
the placeholder receiver id 0. -/
def on_send_busy (remote_peer : Nat) (call_id : CallId) :
    BusyCallbackArgs :=
  ⟨call_id, remote_peer, 0, true⟩

end IOSPlatform

/-! ## Native platform outbound callbacks (native.rs)

Every on_send method delegates to the SignalingSender through
send_signaling; the observable effect is modelled as the list of
send_signaling invocations the method performs. -/

/-- Arguments of one SignalingSender::send_signaling invocation. -/
structure SendSignalingCall where
  recipient_id : String
  call_id : CallId
  receiver_device_id : Option DeviceId
  msg : Message
deriving DecidableEq

namespace NativePlatform

/-- NativePlatform::on_send_ice: forwards the ICE batch to the signaling
sender unconditionally (there is no empty-batch check in native.rs). -/
def on_send_ice (remote_peer : String) (call_id : CallId)
    (send : SendIce) : List SendSignalingCall :=
  [⟨remote_peer, call_id, send.receiver_device_id, .Ice send.ice⟩]

/-- NativePlatform::on_send_hangup: picks the legacy or modern hangup
message and always broadcasts (receiver id none). -/
def on_send_hangup (remote_peer : String) (call_id : CallId)
    (send : SendHangup) : List SendSignalingCall :=
  let message :=
    if send.use_legacy then Message.LegacyHangup send.hangup
    else Message.Hangup send.hangup
  [⟨remote_peer, call_id, none, message⟩]

/-- NativePlatform::on_send_busy: always broadcasts (receiver id none). -/
def on_send_busy (remote_peer : String) (call_id : CallId) :
    List SendSignalingCall :=
  [⟨remote_peer, call_id, none, .Busy⟩]

end NativePlatform

/-! ## FFI pointer helpers (core/util.rs) -/

/-- CM stands for the heap object behind a raw IOSCallManager pointer;
a null pointer is modelled as none. -/
abbrev CM := Nat

/-- ptr_as_mut from core/util.rs: a null pointer yields the NullPointer
error, otherwise the pointed-to object. -/
def ptr_as_mut (ptr : Option CM) : Except RingRtcError CM :=
  match ptr with
  | none => .error (.NullPointer "ptr_as_mut<T>()" "ptr")
  | some cm => .ok cm

/-- ptr_as_box from core/util.rs, used by close. -/
def ptr_as_box (ptr : Option CM) : Except RingRtcError CM :=
  match ptr with
  | none => .error (.NullPointer "ptr_as_box<T>()" "ptr")
  | some cm => .ok cm

/-- Helper mirroring the match on an optional FFI argument in
ios/call_manager.rs: a missing value yields OptionValueNotSet naming the
entry point and the argument. -/
def optionValue (func : String) (arg : String) :
    Option α → Except RingRtcError α
  | some v => .ok v
  | none => .error (.OptionValueNotSet func arg)

/-! ## Receive-side wrappers (core/signaling.rs) -/

/-- ReceivedOffer wrapper; age is the age in seconds (Duration::from_secs
applied to the u64 the entry point receives). -/
structure ReceivedOffer where
  offer : Offer
  age : Nat
  sender_device_id : DeviceId
  sender_device_feature_level : FeatureLevel
  receiver_device_id : DeviceId
  receiver_device_is_primary : Bool
  sender_identity_key : Bytes
  receiver_identity_key : Bytes
deriving DecidableEq

/-- ReceivedAnswer wrapper. -/
structure ReceivedAnswer where
  answer : Answer
  sender_device_id : DeviceId
  sender_device_feature_level : FeatureLevel
  sender_identity_key : Bytes
  receiver_identity_key : Bytes
deriving DecidableEq

/-- ReceivedIce wrapper. -/
structure ReceivedIce where
  ice : Ice
  sender_device_id : DeviceId
deriving DecidableEq

/-- ReceivedHangup wrapper. -/
structure ReceivedHangup where
  hangup : Hangup
  sender_device_id : DeviceId
deriving DecidableEq

/-- ReceivedBusy wrapper. -/
structure ReceivedBusy where
  sender_device_id : DeviceId
deriving DecidableEq

/-! ## iOS FFI entry points (ios/call_manager.rs)

Every public function of ios/call_manager.rs that receives the raw
IOSCallManager pointer is embedded as one variant of IOSEntry (the two
functions that do not receive it, the logging setup and create, are out
of scope of the pointer guard).  A successful run returns the CMOp
descriptor of the one CallManager method the wrapper delegates to, with
the marshalled arguments; an error return means no CallManager operation
was invoked.  Opaque host objects (call context, media tracks, bandwidth
mode, group members, video requests, HTTP responses) are modelled as Nat
or byte lists, since the wrappers only pass them through. -/

/-- One invocation of an iOS FFI entry point, with its raw arguments. -/
inductive IOSEntry where
  | call (remote : Nat) (call_media_type : CallMediaType)
      (local_device : DeviceId)
  | proceed (call_id : CallId) (call_context : Nat) (bandwidth_mode : Nat)
  | message_sent (call_id : CallId)
  | message_send_failure (call_id : CallId)
  | hangup
  | received_answer (call_id : CallId) (sender_device_id : DeviceId)
      (blob : Option Wire) (sender_device_feature_level : FeatureLevel)
      (sender_identity_key : Option Bytes)
      (receiver_identity_key : Option Bytes)
  | received_offer (call_id : CallId) (remote : Nat)
      (sender_device_id : DeviceId) (blob : Option Wire) (age_sec : Nat)
      (call_media_type : CallMediaType) (receiver_device_id : DeviceId)
      (sender_device_feature_level : FeatureLevel)
      (receiver_device_is_primary : Bool)
      (sender_identity_key : Option Bytes)
      (receiver_identity_key : Option Bytes)
  | received_ice (call_id : CallId) (received : ReceivedIce)
  | received_hangup (call_id : CallId) (sender_device_id : DeviceId)
      (hangup_type : HangupType) (hangup_device_id : DeviceId)
  | received_busy (call_id : CallId) (sender_device_id : DeviceId)
  | received_call_message (sender_uuid : Bytes)
      (sender_device_id : DeviceId) (local_device_id : DeviceId)
      (message : Bytes) (message_age_sec : Nat)
  | received_http_response (request_id : Nat) (response : Option Bytes)
  | accept_call (call_id : CallId)
  | get_active_connection
  | get_active_call_context
  | set_video_enable (enable : Bool)
  | update_bandwidth_mode (bandwidth_mode : Nat)
  | drop_call (call_id : CallId)
  | reset
  | close
  | peek_group_call (request_id : Nat) (sfu_url : String)
      (membership_proof : Bytes) (group_members : List Nat)
  | create_group_call_client (group_id : Bytes) (sfu_url : String)
      (native_audio_track : Nat) (native_video_track : Nat)
  | delete_group_call_client (client_id : Nat)
  | connect (client_id : Nat)
  | join (client_id : Nat)
  | leave (client_id : Nat)
  | disconnect (client_id : Nat)
  | set_outgoing_audio_muted (client_id : Nat) (muted : Bool)
  | set_outgoing_video_muted (client_id : Nat) (muted : Bool)
  | resend_media_keys (client_id : Nat)
  | set_bandwidth_mode (client_id : Nat) (bandwidth_mode : Nat)
  | request_video (client_id : Nat) (rendered_resolutions : List Nat)
  | set_group_members (client_id : Nat) (members : List Nat)
  | set_membership_proof (client_id : Nat) (pf : Bytes)
deriving DecidableEq

/-- Descriptor of the CallManager method an entry point delegates to,
with the marshalled arguments. -/
inductive CMOp where
  | call (remote : Nat) (call_media_type : CallMediaType)
      (local_device : DeviceId)
  | proceed (call_id : CallId) (call_context : Nat) (bandwidth_mode : Nat)
  | message_sent (call_id : CallId)
  | message_send_failure (call_id : CallId)
  | hangup
  | received_answer (call_id : CallId) (received : ReceivedAnswer)
  | received_offer (remote : Nat) (call_id : CallId)
      (received : ReceivedOffer)
  | received_ice (call_id : CallId) (received : ReceivedIce)
  | received_hangup (call_id : CallId) (received : ReceivedHangup)
  | received_busy (call_id : CallId) (received : ReceivedBusy)
  | received_call_message (sender_uuid : Bytes)
      (sender_device_id : DeviceId) (local_device_id : DeviceId)
      (message : Bytes) (message_age_sec : Nat)
  | received_http_response (request_id : Nat) (response : Option Bytes)
  | accept_call (call_id : CallId)
  | active_connection
  | active_call_context
  | set_video_enable (enable : Bool)
  | update_bandwidth_mode (bandwidth_mode : Nat)
  | drop_call (call_id : CallId)
  | reset
  | close
  | peek_group_call (request_id : Nat) (sfu_url : String)
      (membership_proof : Bytes) (group_members : List Nat)
  | create_group_call_client (group_id : Bytes) (sfu_url : String)
      (outgoing_audio_track : Nat) (outgoing_video_track : Nat)
  | delete_group_call_client (client_id : Nat)
  | connect (client_id : Nat)
  | join (client_id : Nat)
  | leave (client_id : Nat)
  | disconnect (client_id : Nat)
  | set_outgoing_audio_muted (client_id : Nat) (muted : Bool)
  | set_outgoing_video_muted (client_id : Nat) (muted : Bool)
  | resend_media_keys (client_id : Nat)
  | set_bandwidth_mode (client_id : Nat) (bandwidth_mode : Nat)
  | request_video (client_id : Nat) (rendered_resolutions : List Nat)
  | set_group_members (client_id : Nat) (members : List Nat)
  | set_membership_proof (client_id : Nat) (pf : Bytes)
deriving DecidableEq

/-- Dispatcher over the iOS FFI entry points: each branch mirrors the
body of the corresponding function in ios/call_manager.rs, with the raw
pointer dereference first (via ptr_as_box for close, ptr_as_mut for the
rest), then the option checks of received_answer and received_offer in
source order, then the payload decode, then the delegation. -/
def iosDispatch (p : Option CM) : IOSEntry → Except RingRtcError CMOp
  | .call remote mt dev => do
    let _cm ← ptr_as_mut p
    pure (.call remote mt dev)
  | .proceed call_id ctx bw => do
    let _cm ← ptr_as_mut p
    pure (.proceed call_id ctx bw)
  | .message_sent call_id => do
    let _cm ← ptr_as_mut p
    pure (.message_sent call_id)
  | .message_send_failure call_id => do
    let _cm ← ptr_as_mut p
    pure (.message_send_failure call_id)
  | .hangup => do
    let _cm ← ptr_as_mut p
    pure .hangup
  | .received_answer call_id sender_device_id blob fl sk rk => do
    let _cm ← ptr_as_mut p
    let blob ← optionValue "received_answer()" "opaque" blob
    let sender_identity_key ←
      optionValue "received_answer()" "sender_identity_key" sk
    let receiver_identity_key ←
      optionValue "received_answer()" "receiver_identity_key" rk
    let answer ← Answer.new blob
    pure (.received_answer call_id
      ⟨answer, sender_device_id, fl, sender_identity_key,
        receiver_identity_key⟩)
  | .received_offer call_id remote sender_device_id blob age_sec mt
      receiver_device_id fl primary sk rk => do
    let _cm ← ptr_as_mut p
    let blob ← optionValue "received_offer()" "opaque" blob
    let sender_identity_key ←
      optionValue "received_offer()" "sender_identity_key" sk
    let receiver_identity_key ←
      optionValue "received_offer()" "receiver_identity_key" rk
    let offer ← Offer.new mt blob
    pure (.received_offer remote call_id
      ⟨offer, age_sec, sender_device_id, fl, receiver_device_id, primary,
        sender_identity_key, receiver_identity_key⟩)
  | .received_ice call_id received => do
    let _cm ← ptr_as_mut p
    pure (.received_ice call_id received)
  | .received_hangup call_id sender_device_id typ hangup_device_id => do
    let _cm ← ptr_as_mut p
    pure (.received_hangup call_id
      ⟨Hangup.from_type_and_device_id typ hangup_device_id,
        sender_device_id⟩)
  | .received_busy call_id sender_device_id => do
    let _cm ← ptr_as_mut p
    pure (.received_busy call_id ⟨sender_device_id⟩)
  | .received_call_message sender_uuid sender_device_id local_device_id
      message message_age_sec => do
    let _cm ← ptr_as_mut p
    pure (.received_call_message sender_uuid sender_device_id
      local_device_id message message_age_sec)
  | .received_http_response request_id response => do
    let _cm ← ptr_as_mut p
    pure (.received_http_response request_id response)
  | .accept_call call_id => do
    let _cm ← ptr_as_mut p
    pure (.accept_call call_id)
  | .get_active_connection => do
    let _cm ← ptr_as_mut p
    pure .active_connection
  | .get_active_call_context => do
    let _cm ← ptr_as_mut p
    pure .active_call_context
  | .set_video_enable enable => do
    let _cm ← ptr_as_mut p
    pure (.set_video_enable enable)
  | .update_bandwidth_mode bw => do
    let _cm ← ptr_as_mut p
    pure (.update_bandwidth_mode bw)
  | .drop_call call_id => do
    let _cm ← ptr_as_mut p
    pure (.drop_call call_id)
  | .reset => do
    let _cm ← ptr_as_mut p
    pure .reset
  | .close => do
    let _cm ← ptr_as_box p
    pure .close
  | .peek_group_call request_id sfu_url membership_proof group_members => do
    let _cm ← ptr_as_mut p
    pure (.peek_group_call request_id sfu_url membership_proof
      group_members)
  | .create_group_call_client group_id sfu_url audio video => do
    let _cm ← ptr_as_mut p
    pure (.create_group_call_client group_id sfu_url audio video)
  | .delete_group_call_client client_id => do
    let _cm ← ptr_as_mut p
    pure (.delete_group_call_client client_id)
  | .connect client_id => do
    let _cm ← ptr_as_mut p
    pure (.connect client_id)
  | .join client_id => do
    let _cm ← ptr_as_mut p
    pure (.join client_id)
  | .leave client_id => do
    let _cm ← ptr_as_mut p
    pure (.leave client_id)
  | .disconnect client_id => do
    let _cm ← ptr_as_mut p
    pure (.disconnect client_id)
  | .set_outgoing_audio_muted client_id muted => do
    let _cm ← ptr_as_mut p
    pure (.set_outgoing_audio_muted client_id muted)
  | .set_outgoing_video_muted client_id muted => do
    let _cm ← ptr_as_mut p
    pure (.set_outgoing_video_muted client_id muted)
  | .resend_media_keys client_id => do
    let _cm ← ptr_as_mut p
    pure (.resend_media_keys client_id)
  | .set_bandwidth_mode client_id bw => do
    let _cm ← ptr_as_mut p
    pure (.set_bandwidth_mode client_id bw)
  | .request_video client_id rendered_resolutions => do
    let _cm ← ptr_as_mut p
    pure (.request_video client_id rendered_resolutions)
  | .set_group_members client_id members => do
    let _cm ← ptr_as_mut p
    pure (.set_group_members client_id members)
  | .set_membership_proof client_id pf => do
    let _cm ← ptr_as_mut p
    pure (.set_membership_proof client_id pf)

/-! ## Hex and UUID rendering (core/util.rs) -/

/-- Two lowercase hex characters of one byte, the 02x rendering for
values below 256 (u8 range). -/
def byteToHexChars (b : Nat) : List Char :=
  [Nat.digitChar (b / 16 % 16), Nat.digitChar (b % 16)]

/-- Characters accumulated by the bytes_to_hexstring loop. -/
def hexChars : List Nat → List Char
  | [] => []
  | b :: rest => byteToHexChars b ++ hexChars rest

/-- bytes_to_hexstring from core/util.rs. -/
def bytes_to_hexstring (bytes : Bytes) : String :=
  String.mk (hexChars bytes)

/-- Characters accumulated by the uuid_to_string loop: the hex rendering
of each byte, with a hyphen pushed after positions 3, 5, 7 and 9. -/
def uuidChars : Nat → List Nat → List Char
  | _, [] => []
  | i, b :: rest =>
    byteToHexChars b ++
      (if i = 3 ∨ i = 5 ∨ i = 7 ∨ i = 9 then [Char.ofNat 45] else []) ++
      uuidChars (i + 1) rest

/-- uuid_to_string from core/util.rs: empty unless the input is exactly
16 bytes, else the hyphenated hex rendering. -/
def uuid_to_string (bytes : Bytes) : String :=
  if bytes.length = 16 then String.mk (uuidChars 0 bytes) else ""

/-- Statement of the claimed UUID format, written from the spec words: the
lowercase hex rendering of the byte groups 0-3, 4-5, 6-7, 8-9 and 10-15,
joined by hyphens. -/
def uuidSpecFormat (b : Bytes) : String :=
  bytes_to_hexstring (b.take 4) ++ "-" ++
    bytes_to_hexstring ((b.drop 4).take 2) ++ "-" ++
    bytes_to_hexstring ((b.drop 6).take 2) ++ "-" ++
    bytes_to_hexstring ((b.drop 8).take 2) ++ "-" ++
    bytes_to_hexstring (b.drop 10)

/-! ## Helper lemmas: the wire roundtrip -/

/-- Byte fields parse back from their serialization. -/
theorem decodeBytesField_encode (b : Bytes) (rest : Wire) :
    decodeBytesField (encodeBytesField b ++ rest) = some (b, rest) := rfl

/-- String fields parse back from their serialization. -/
theorem decodeTextField_encode (s : String) (rest : Wire) :
    decodeTextField (encodeTextField s ++ rest) = some (s, rest) := rfl

/-- V4 sub-messages parse back from their serialization. -/
theorem decodeV4_encode (v : ConnectionParametersV4) (rest : Wire) :
    decodeV4 (encodeV4 v ++ rest) = some (v, rest) := rfl

/-- Optional fields parse back from their serialization whenever the body
does. -/
theorem decodeOpt_encodeOpt {α : Type} (f : Wire → Option (α × Wire))
    (g : α → Wire) (hfg : ∀ x rest, f (g x ++ rest) = some (x, rest))
    (o : Option α) (rest : Wire) :
    decodeOpt f (encodeOpt g o ++ rest) = some (o, rest) := by
  cases o with
  | none => rfl
  | some x => simp [encodeOpt, decodeOpt, hfg]

/-- Specialization of the optional-field roundtrip with no trailing
input. -/
theorem decodeOpt_encodeOpt_nil {α : Type} (f : Wire → Option (α × Wire))
    (g : α → Wire) (hfg : ∀ x rest, f (g x ++ rest) = some (x, rest))
    (o : Option α) : decodeOpt f (encodeOpt g o) = some (o, []) := by
  have h := decodeOpt_encodeOpt f g hfg o []
  rwa [List.append_nil] at h

/-- Legacy sub-messages parse back from their serialization. -/
theorem decodeV3OrV2_encode (c : ConnectionParametersV3OrV2)
    (rest : Wire) :
    decodeV3OrV2 (encodeV3OrV2 c ++ rest) = some (c, rest) := by
  simp [decodeV3OrV2, encodeV3OrV2, List.append_assoc,
    decodeOpt_encodeOpt decodeBytesField encodeBytesField
      decodeBytesField_encode,
    decodeOpt_encodeOpt decodeTextField encodeTextField
      decodeTextField_encode]

/-- Offer payloads parse back from their serialization. -/
theorem decodeOfferProto_encode (p : OfferProto) :
    decodeOfferProto (encodeOfferProto p) = some p := by
  simp [decodeOfferProto, encodeOfferProto,
    decodeOpt_encodeOpt decodeV3OrV2 encodeV3OrV2 decodeV3OrV2_encode,
    decodeOpt_encodeOpt_nil decodeV4 encodeV4 decodeV4_encode]

/-- Answer payloads parse back from their serialization. -/
theorem decodeAnswerProto_encode (p : AnswerProto) :
    decodeAnswerProto (encodeAnswerProto p) = some p := by
  simp [decodeAnswerProto, encodeAnswerProto,
    decodeOpt_encodeOpt decodeV3OrV2 encodeV3OrV2 decodeV3OrV2_encode,
    decodeOpt_encodeOpt_nil decodeV4 encodeV4 decodeV4_encode]

/-- Offer::new succeeds on any serialized payload and caches exactly the
payload that was serialized. -/
theorem offer_new_encode (mt : CallMediaType) (p : OfferProto) :
    Offer.new mt (encodeOfferProto p)
      = .ok ⟨mt, encodeOfferProto p, p⟩ := by
  unfold Offer.new
  rw [decodeOfferProto_encode]

/-- Answer::new succeeds on any serialized payload and caches exactly the
payload that was serialized. -/
theorem answer_new_encode (p : AnswerProto) :
    Answer.new (encodeAnswerProto p) = .ok ⟨encodeAnswerProto p, p⟩ := by
  unfold Answer.new
  rw [decodeAnswerProto_encode]

/-! ## Spec-side definitions used by the claim statements -/

/-- Version implied by which Offer payload fields are populated, written
from the spec words: V4 if the v4 sub-message is present, else V3 if the
legacy public key is present, else V2. -/
def offerVersionOfProto (p : OfferProto) : Version :=
  match p.v4 with
  | some _ => .V4
  | none =>
    match p.v3_or_v2 with
    | some c =>
      match c.public_key with
      | some _ => .V3
      | none => .V2
    | none => .V2

/-- Version implied by which Answer payload fields are populated, written
from the spec words. -/
def answerVersionOfProto (p : AnswerProto) : Version :=
  match p.v4 with
  | some _ => .V4
  | none =>
    match p.v3_or_v2 with
    | some c =>
      match c.public_key with
      | some _ => .V3
      | none => .V2
    | none => .V2

/-- Legacy SDP of a decoded payload, written from the spec words: the sdp
field of the v3_or_v2 sub-message when both are present. -/
def legacySdp : Option ConnectionParametersV3OrV2 → Option String
  | some c => c.sdp
  | none => none

/-- Legacy SDP and public key of a decoded payload, written from the spec
words: present exactly when the legacy sdp field is present. -/
def legacyParams :
    Option ConnectionParametersV3OrV2 → Option (String × Option Bytes)
  | some c =>
    match c.sdp with
    | some s => some (s, c.public_key)
    | none => none
  | none => none

/-! ## Claim theorems -/

/-- C6: for every Hangup variant, from_i32 of the wire value of its type
recovers that type; the wire values are Normal=0,
AcceptedOnAnotherDevice=1, DeclinedOnAnotherDevice=2,
BusyOnAnotherDevice=3, NeedPermission=4; and from_i32 is none on every
integer outside 0..4. -/
theorem hangup_type_wire_values :
    (∀ h : Hangup,
      HangupType.from_i32 h.to_type_and_device_id.1.toI32
        = some h.to_type_and_device_id.1)
    ∧ HangupType.toI32 HangupType.Normal = 0
    ∧ HangupType.toI32 HangupType.AcceptedOnAnotherDevice = 1
    ∧ HangupType.toI32 HangupType.DeclinedOnAnotherDevice = 2
    ∧ HangupType.toI32 HangupType.BusyOnAnotherDevice = 3
    ∧ HangupType.toI32 HangupType.NeedPermission = 4
    ∧ (∀ v : Int, ¬(0 ≤ v ∧ v ≤ 4) → HangupType.from_i32 v = none) := by
  refine ⟨fun h => ?_, rfl, rfl, rfl, rfl, rfl, fun v hv => ?_⟩
  · cases h <;> rfl
  · unfold HangupType.from_i32
    split_ifs <;> first | rfl | (exfalso; omega)

/-- C6 witness: the wire roundtrip at the BusyOnAnotherDevice variant and
the rejection of the out-of-range values 5 and -1. -/
theorem hangup_type_wire_values_witness :
    HangupType.from_i32
        (Hangup.BusyOnAnotherDevice 9).to_type_and_device_id.1.toI32
      = some HangupType.BusyOnAnotherDevice
    ∧ HangupType.from_i32 5 = none
    ∧ HangupType.from_i32 (-1) = none :=
  ⟨hangup_type_wire_values.1 (Hangup.BusyOnAnotherDevice 9),
    hangup_type_wire_values.2.2.2.2.2.2 5 (by omega),
    hangup_type_wire_values.2.2.2.2.2.2 (-1) (by omega)⟩

/-- C7: NeedPermission none maps to the pair (NeedPermission, none), the
iOS send path transmits the unset device id as the concrete value 0, and
reconstruction from (NeedPermission, 0) yields NeedPermission (some 0),
which is not NeedPermission none; Normal is likewise transmitted with
device id 0. -/
theorem need_permission_lossy_roundtrip :
    Hangup.to_type_and_device_id (Hangup.NeedPermission none)
        = (HangupType.NeedPermission, none)
    ∧ (∀ rp cid legacy,
        (IOSPlatform.on_send_hangup rp cid
            ⟨Hangup.NeedPermission none, legacy⟩).hangup_device_id = 0
        ∧ (IOSPlatform.on_send_hangup rp cid
            ⟨Hangup.Normal, legacy⟩).hangup_device_id = 0)
    ∧ Hangup.from_type_and_device_id HangupType.NeedPermission 0
        = Hangup.NeedPermission (some 0)
    ∧ Hangup.NeedPermission (some 0) ≠ Hangup.NeedPermission none
    ∧ Hangup.to_type_and_device_id Hangup.Normal
        = (HangupType.Normal, none) := by
  exact ⟨rfl, fun rp cid legacy => ⟨rfl, rfl⟩, rfl, by decide, rfl⟩

/-- C7 witness: the transmitted device id at a concrete send of
NeedPermission none. -/
theorem need_permission_lossy_witness :
    (IOSPlatform.on_send_hangup 0 1
      ⟨Hangup.NeedPermission none, false⟩).hangup_device_id = 0 :=
  (need_permission_lossy_roundtrip.2.1 0 1 false).1

/-- C8: hangup and busy sends are always broadcast and never targeted: on
iOS the callback receives broadcast true with placeholder receiver id 0,
and on the native platform the signaling sender receives receiver id
none, for every input. -/
theorem hangup_busy_always_broadcast :
    (∀ rp cid send,
      (IOSPlatform.on_send_hangup rp cid send).broadcast = true
      ∧ (IOSPlatform.on_send_hangup rp cid send).receiver_device_id = 0)
    ∧ (∀ rp cid,
      (IOSPlatform.on_send_busy rp cid).broadcast = true
      ∧ (IOSPlatform.on_send_busy rp cid).receiver_device_id = 0)
    ∧ (∀ rp cid send,
      NativePlatform.on_send_hangup rp cid send
        = [⟨rp, cid, none,
            if send.use_legacy then Message.LegacyHangup send.hangup
            else Message.Hangup send.hangup⟩])
    ∧ (∀ rp cid,
      NativePlatform.on_send_busy rp cid = [⟨rp, cid, none, .Busy⟩]) := by
  exact ⟨fun rp cid send => ⟨rfl, rfl⟩, fun rp cid => ⟨rfl, rfl⟩,
    fun rp cid send => rfl, fun rp cid => rfl⟩

/-- C3 counterexample: on the native platform, on_send_ice with an empty
candidates_added batch still performs a send_signaling invocation, so the
outbound-ICE path is not a no-op on every Platform implementation. -/
theorem native_send_ice_empty_batch_invokes_sender :
    NativePlatform.on_send_ice "remote" 7 ⟨⟨[]⟩, none⟩
        = [⟨"remote", 7, none, Message.Ice ⟨[]⟩⟩]
    ∧ NativePlatform.on_send_ice "remote" 7 ⟨⟨[]⟩, none⟩ ≠ [] := by
  exact ⟨rfl, by decide⟩

/-- C3 amended: on the iOS platform an empty candidates_added batch is a
no-op returning Ok without invoking onSendIceCandidates, while the native
platform forwards the SendIce to the signaling sender unconditionally,
empty batch included. -/
theorem send_ice_empty_batch_platform_behavior :
    (∀ rp cid send, send.ice.candidates_added = [] →
      IOSPlatform.on_send_ice rp cid send = .ok none)
    ∧ (∀ rp cid send,
      NativePlatform.on_send_ice rp cid send
        = [⟨rp, cid, send.receiver_device_id, .Ice send.ice⟩]) := by
  refine ⟨fun rp cid send hempty => ?_, fun rp cid send => rfl⟩
  unfold IOSPlatform.on_send_ice
  rw [if_pos hempty]

/-- C3 witness: the iOS no-op conclusion at a concrete empty batch. -/
theorem send_ice_empty_batch_witness :
    IOSPlatform.on_send_ice 3 7 ⟨⟨[]⟩, some 2⟩ = .ok none :=
  send_ice_empty_batch_platform_behavior.1 3 7 ⟨⟨[]⟩, some 2⟩ rfl

/-- C1: latest_version is a pure function of the decoded payload, equal
to the version implied by which fields are populated; an Offer built by
from_v4 reports V4, one built by from_v4_and_v3_and_v2 reports V4 when a
v4 sub-message was passed and V3 otherwise, and an Answer built by
from_v4 reports V4. -/
theorem latest_version_of_populated_fields :
    (∀ o : Offer, o.latest_version = offerVersionOfProto o.proto)
    ∧ (∀ a : Answer, a.latest_version = answerVersionOfProto a.proto)
    ∧ (∀ mt v4 o, Offer.from_v4 mt v4 = .ok o →
        o.latest_version = Version.V4)
    ∧ (∀ mt pk v4 sdp o,
        Offer.from_v4_and_v3_and_v2 mt pk v4 sdp = .ok o →
        o.latest_version
          = match v4 with
            | some _ => Version.V4
            | none => Version.V3)
    ∧ (∀ v4 a, Answer.from_v4 v4 = .ok a →
        a.latest_version = Version.V4) := by
  refine ⟨fun o => ?_, fun a => ?_, fun mt v4 o h => ?_,
    fun mt pk v4 sdp o h => ?_, fun v4 a h => ?_⟩
  · rcases o with ⟨mt, blob, ⟨v32, v4⟩⟩
    cases v4 with
    | some v => rfl
    | none =>
      cases v32 with
      | none => rfl
      | some c =>
        rcases c with ⟨pk, sdp⟩
        cases pk <;> rfl
  · rcases a with ⟨blob, ⟨v32, v4⟩⟩
    cases v4 with
    | some v => rfl
    | none =>
      cases v32 with
      | none => rfl
      | some c =>
        rcases c with ⟨pk, sdp⟩
        cases pk <;> rfl
  · rw [Offer.from_v4, offer_new_encode] at h
    cases h
    rfl
  · rw [Offer.from_v4_and_v3_and_v2, offer_new_encode] at h
    cases h
    cases v4 <;> rfl
  · rw [Answer.from_v4, answer_new_encode] at h
    cases h
    rfl

/-- C1 witness: the constructor conclusions at concrete inputs, V4 with a
concrete v4 payload and V3 when from_v4_and_v3_and_v2 gets no v4. -/
theorem latest_version_witness :
    Offer.latest_version
        ⟨CallMediaType.Audio, encodeOfferProto ⟨none, some ⟨[5]⟩⟩,
          ⟨none, some ⟨[5]⟩⟩⟩ = Version.V4
    ∧ Offer.latest_version
        ⟨CallMediaType.Video,
          encodeOfferProto ⟨some ⟨some [1], some "s"⟩, none⟩,
          ⟨some ⟨some [1], some "s"⟩, none⟩⟩ = Version.V3 :=
  ⟨latest_version_of_populated_fields.2.2.1 CallMediaType.Audio ⟨[5]⟩ _
      (by rw [Offer.from_v4, offer_new_encode]),
    latest_version_of_populated_fields.2.2.2.1 CallMediaType.Video [1]
      none "s" _
      (by rw [Offer.from_v4_and_v3_and_v2, offer_new_encode])⟩

/-- C2: Offer::new and Answer::new fail with a decode error exactly when
the payload does not parse, a success caches exactly the decoded form of
the stored blob (the two are mutually consistent, and no accessor of
either type produces a modified value, so no path updates one side
alone), and every builder constructor serializes a parameters structure
and passes it through new. -/
theorem constructors_cache_consistent :
    (∀ mt blob o, Offer.new mt blob = .ok o →
      o.blob = blob ∧ o.call_media_type = mt
        ∧ decodeOfferProto o.blob = some o.proto)
    ∧ (∀ mt blob, decodeOfferProto blob = none →
        Offer.new mt blob = .error RingRtcError.ProtoDecodeError)
    ∧ (∀ blob a, Answer.new blob = .ok a →
        a.blob = blob ∧ decodeAnswerProto a.blob = some a.proto)
    ∧ (∀ blob, decodeAnswerProto blob = none →
        Answer.new blob = .error RingRtcError.ProtoDecodeError)
    ∧ (∀ mt v4, Offer.from_v4 mt v4
        = Offer.new mt (encodeOfferProto ⟨none, some v4⟩))
    ∧ (∀ mt pk v4 sdp, Offer.from_v4_and_v3_and_v2 mt pk v4 sdp
        = Offer.new mt (encodeOfferProto ⟨some ⟨some pk, some sdp⟩, v4⟩))
    ∧ (∀ v4, Answer.from_v4 v4
        = Answer.new (encodeAnswerProto ⟨none, some v4⟩))
    ∧ (∀ pk sdp, Answer.from_v3_and_v2_sdp pk sdp
        = Answer.new (encodeAnswerProto ⟨some ⟨some pk, some sdp⟩, none⟩)) := by
  refine ⟨fun mt blob o h => ?_, fun mt blob h => ?_,
    fun blob a h => ?_, fun blob h => ?_,
    fun mt v4 => rfl, fun mt pk v4 sdp => rfl,
    fun v4 => rfl, fun pk sdp => rfl⟩
  · unfold Offer.new at h
    cases hdec : decodeOfferProto blob with
    | none => rw [hdec] at h; cases h
    | some proto =>
      rw [hdec] at h
      cases h
      exact ⟨rfl, rfl, hdec⟩
  · unfold Offer.new
    rw [h]
  · unfold Answer.new at h
    cases hdec : decodeAnswerProto blob with
    | none => rw [hdec] at h; cases h
    | some proto =>
      rw [hdec] at h
      cases h
      exact ⟨rfl, hdec⟩
  · unfold Answer.new
    rw [h]

/-- C2 witness: a concrete successful construction whose cached payload
decodes back from the stored blob, and a concrete malformed blob on which
construction fails with the decode error. -/
theorem constructors_cache_consistent_witness :
    decodeOfferProto
        (Offer.mk CallMediaType.Audio [Tok.tagNone, Tok.tagNone]
          ⟨none, none⟩).blob
      = some (Offer.mk CallMediaType.Audio [Tok.tagNone, Tok.tagNone]
          ⟨none, none⟩).proto
    ∧ Offer.new CallMediaType.Audio []
        = .error RingRtcError.ProtoDecodeError :=
  ⟨(constructors_cache_consistent.1 CallMediaType.Audio
      [Tok.tagNone, Tok.tagNone] _ rfl).2.2,
    constructors_cache_consistent.2.1 CallMediaType.Audio [] rfl⟩

/-- C4: to_v3_or_v2_sdp and to_v3_or_v2_params are determined by the
legacy sub-message alone (the v4 field never influences them), returning
the legacy SDP, respectively the SDP paired with the public key, when the
sdp field is present, and the unknown protocol version error exactly when
it is not. -/
theorem legacy_accessors_favor_v3_or_v2 :
    (∀ o : Offer, o.to_v3_or_v2_sdp
      = match legacySdp o.proto.v3_or_v2 with
        | some s => .ok s
        | none => .error RingRtcError.UnknownSignaledProtocolVersion)
    ∧ (∀ o : Offer, o.to_v3_or_v2_params
      = match legacyParams o.proto.v3_or_v2 with
        | some pr => .ok pr
        | none => .error RingRtcError.UnknownSignaledProtocolVersion)
    ∧ (∀ a : Answer, a.to_v3_or_v2_params
      = match legacyParams a.proto.v3_or_v2 with
        | some pr => .ok pr
        | none => .error RingRtcError.UnknownSignaledProtocolVersion)
    ∧ (∀ o : Offer,
        o.to_v3_or_v2_sdp = .error RingRtcError.UnknownSignaledProtocolVersion
          ↔ legacySdp o.proto.v3_or_v2 = none)
    ∧ (∀ (o : Offer) (v4 : Option ConnectionParametersV4),
        Offer.to_v3_or_v2_sdp
            ⟨o.call_media_type, o.blob, ⟨o.proto.v3_or_v2, v4⟩⟩
          = o.to_v3_or_v2_sdp
        ∧ Offer.to_v3_or_v2_params
            ⟨o.call_media_type, o.blob, ⟨o.proto.v3_or_v2, v4⟩⟩
          = o.to_v3_or_v2_params) := by
  have hsdp : ∀ o : Offer, o.to_v3_or_v2_sdp
      = match legacySdp o.proto.v3_or_v2 with
        | some s => .ok s
        | none => .error RingRtcError.UnknownSignaledProtocolVersion := by
    intro o
    rcases o with ⟨mt, blob, ⟨v32, v4⟩⟩
    cases v32 with
    | none => rfl
    | some c =>
      rcases c with ⟨pk, sdp⟩
      cases sdp <;> rfl
  have hparams : ∀ o : Offer, o.to_v3_or_v2_params
      = match legacyParams o.proto.v3_or_v2 with
        | some pr => .ok pr
        | none => .error RingRtcError.UnknownSignaledProtocolVersion := by
    intro o
    rcases o with ⟨mt, blob, ⟨v32, v4⟩⟩
    cases v32 with
    | none => rfl
    | some c =>
      rcases c with ⟨pk, sdp⟩
      cases sdp <;> rfl
  refine ⟨hsdp, hparams, fun a => ?_, fun o => ?_, fun o v4 => ?_⟩
  · rcases a with ⟨blob, ⟨v32, v4⟩⟩
    cases v32 with
    | none => rfl
    | some c =>
      rcases c with ⟨pk, sdp⟩
      cases sdp <;> rfl
  · rw [hsdp o]
    cases hleg : legacySdp o.proto.v3_or_v2 <;> simp
  · constructor
    · rw [hsdp, hsdp]
    · rw [hparams, hparams]

/-- C5: an Answer built by from_v3_and_v2_sdp with a public key and an
SDP yields exactly that pair from to_v3_or_v2_params and reports latest
version V3. -/
theorem answer_v3_roundtrip (pk : Bytes) (sdp : String) (a : Answer)
    (h : Answer.from_v3_and_v2_sdp pk sdp = .ok a) :
    a.to_v3_or_v2_params = .ok (sdp, some pk)
    ∧ a.latest_version = Version.V3 := by
  rw [Answer.from_v3_and_v2_sdp, answer_new_encode] at h
  cases h
  exact ⟨rfl, rfl⟩

/-- C5 witness: the roundtrip at a concrete key and SDP string. -/
theorem answer_v3_roundtrip_witness :
    Answer.to_v3_or_v2_params
        ⟨encodeAnswerProto ⟨some ⟨some [1, 2], some "v=0"⟩, none⟩,
          ⟨some ⟨some [1, 2], some "v=0"⟩, none⟩⟩
      = .ok ("v=0", some [1, 2])
    ∧ Answer.latest_version
        ⟨encodeAnswerProto ⟨some ⟨some [1, 2], some "v=0"⟩, none⟩,
          ⟨some ⟨some [1, 2], some "v=0"⟩, none⟩⟩ = Version.V3 :=
  answer_v3_roundtrip [1, 2] "v=0" _
    (by rw [Answer.from_v3_and_v2_sdp, answer_new_encode])

/-- C9: every iOS entry point that receives the call-manager pointer
returns a NullPointer error on a null pointer before any CallManager
operation is delegated; and received_answer and received_offer return an
OptionValueNotSet error, delegating nothing, whenever the payload, the
sender identity key or the receiver identity key is absent. -/
theorem ios_null_pointer_and_missing_option_guards :
    (∀ e : IOSEntry, ∃ f,
      iosDispatch none e = .error (RingRtcError.NullPointer f "ptr"))
    ∧ (∀ (cm : CM) cid sdid blob fl sk rk,
        blob = none ∨ sk = none ∨ rk = none →
        ∃ arg, iosDispatch (some cm)
            (.received_answer cid sdid blob fl sk rk)
          = .error (RingRtcError.OptionValueNotSet "received_answer()" arg))
    ∧ (∀ (cm : CM) cid remote sdid blob age mt rdid fl primary sk rk,
        blob = none ∨ sk = none ∨ rk = none →
        ∃ arg, iosDispatch (some cm)
            (.received_offer cid remote sdid blob age mt rdid fl primary
              sk rk)
          = .error (RingRtcError.OptionValueNotSet "received_offer()" arg)) := by
  refine ⟨fun e => ?_, fun cm cid sdid blob fl sk rk h => ?_,
    fun cm cid remote sdid blob age mt rdid fl primary sk rk h => ?_⟩
  · cases e <;> exact ⟨_, rfl⟩
  · cases blob with
    | none => exact ⟨"opaque", rfl⟩
    | some b =>
      cases sk with
      | none => exact ⟨"sender_identity_key", rfl⟩
      | some s =>
        cases rk with
        | none => exact ⟨"receiver_identity_key", rfl⟩
        | some r => rcases h with h | h | h <;> simp at h
  · cases blob with
    | none => exact ⟨"opaque", rfl⟩
    | some b =>
      cases sk with
      | none => exact ⟨"sender_identity_key", rfl⟩
      | some s =>
        cases rk with
        | none => exact ⟨"receiver_identity_key", rfl⟩
        | some r => rcases h with h | h | h <;> simp at h

/-- C9 witness: a null pointer at the hangup entry point and a missing
payload at the received_answer entry point, both at concrete arguments. -/
theorem ios_guards_witness :
    (∃ f, iosDispatch none IOSEntry.hangup
      = .error (RingRtcError.NullPointer f "ptr"))
    ∧ (∃ arg, iosDispatch (some 3)
        (.received_answer 1 2 none FeatureLevel.MultiRing (some [1])
          (some [2]))
      = .error (RingRtcError.OptionValueNotSet "received_answer()" arg)) :=
  ⟨ios_null_pointer_and_missing_option_guards.1 IOSEntry.hangup,
    ios_null_pointer_and_missing_option_guards.2.1 3 1 2 none
      FeatureLevel.MultiRing (some [1]) (some [2]) (Or.inl rfl)⟩

/-- C10: uuid_to_string is empty whenever the input is not exactly 16
bytes, and on 16 bytes it is the lowercase hex rendering with hyphens
after the 4th, 6th, 8th and 10th bytes, 36 characters long. -/
theorem uuid_to_string_format (b : Bytes) :
    (b.length ≠ 16 → uuid_to_string b = "")
    ∧ (b.length = 16 →
        uuid_to_string b = uuidSpecFormat b
        ∧ ((∀ x ∈ b, x < 256) → (uuid_to_string b).length = 36)) := by
  refine ⟨fun h => ?_, fun h16 => ?_⟩
  · unfold uuid_to_string
    rw [if_neg h]
  · rcases b with _ | ⟨a0, b⟩
    · simp only [List.length_nil] at h16
      omega
    rcases b with _ | ⟨a1, b⟩
    · simp only [List.length_cons, List.length_nil] at h16
      omega
    rcases b with _ | ⟨a2, b⟩
    · simp only [List.length_cons, List.length_nil] at h16
      omega
    rcases b with _ | ⟨a3, b⟩
    · simp only [List.length_cons, List.length_nil] at h16
      omega
    rcases b with _ | ⟨a4, b⟩
    · simp only [List.length_cons, List.length_nil] at h16
      omega
    rcases b with _ | ⟨a5, b⟩
    · simp only [List.length_cons, List.length_nil] at h16
      omega
    rcases b with _ | ⟨a6, b⟩
    · simp only [List.length_cons, List.length_nil] at h16
      omega
    rcases b with _ | ⟨a7, b⟩
    · simp only [List.length_cons, List.length_nil] at h16
      omega
    rcases b with _ | ⟨a8, b⟩
    · simp only [List.length_cons, List.length_nil] at h16
      omega
    rcases b with _ | ⟨a9, b⟩
    · simp only [List.length_cons, List.length_nil] at h16
      omega
    rcases b with _ | ⟨a10, b⟩
    · simp only [List.length_cons, List.length_nil] at h16
      omega
    rcases b with _ | ⟨a11, b⟩
    · simp only [List.length_cons, List.length_nil] at h16
      omega
    rcases b with _ | ⟨a12, b⟩
    · simp only [List.length_cons, List.length_nil] at h16
      omega
    rcases b with _ | ⟨a13, b⟩
    · simp only [List.length_cons, List.length_nil] at h16
      omega
    rcases b with _ | ⟨a14, b⟩
    · simp only [List.length_cons, List.length_nil] at h16
      omega
    rcases b with _ | ⟨a15, b⟩
    · simp only [List.length_cons, List.length_nil] at h16
      omega
    rcases b with _ | ⟨a16, b⟩
    · exact ⟨rfl, fun _ => rfl⟩
    · simp only [List.length_cons] at h16
      omega

/-- C10 witness: a wrong-length input renders empty, and the 16-byte
documentation example from core/util.rs renders to the standard UUID
string. -/
theorem uuid_to_string_witness :
    uuid_to_string [1, 171, 205] = ""
    ∧ uuid_to_string
        [17, 34, 51, 68, 85, 102, 119, 136, 153, 0, 170, 187, 204, 221,
          238, 255]
      = "11223344-5566-7788-9900-aabbccddeeff" := by
  constructor
  · exact (uuid_to_string_format [1, 171, 205]).1 (by decide)
  · have h := (uuid_to_string_format
      [17, 34, 51, 68, 85, 102, 119, 136, 153, 0, 170, 187, 204, 221,
        238, 255]).2 rfl
    rw [h.1]
    decide

end RingRTC
